import Mathlib

/-!
Shallow embedding of the gym-saas backend (arbazw/gym-saas), covering the
trial-booking and gym-mutation logic in src/app/routes/trials.py,
src/app/routes/gyms.py, src/app/crud.py, src/app/models.py and
src/app/schemas.py.  Pure functions model each route handler body: the
request body is already parsed into the schema object, the database session
is an explicit `Store` value, and a raised HTTPException or Python runtime
error becomes the `Except.error` branch.
-/

namespace GymSaas

/-- Roles of app.models.UserRole (src/app/models.py lines 19-23): a plain
Python Enum, NOT a str subclass. -/
inductive UserRole
  | seeker
  | gym_owner
  | customer
  | admin
deriving DecidableEq, Repr

/-- Statuses of app.models.TrialStatus (src/app/models.py lines 26-29): a
str-Enum, so a member compares equal to its string value. -/
inductive TrialStatus
  | pending
  | accepted
  | rejected
deriving DecidableEq, Repr

/-- The string value of a TrialStatus member (name and value coincide in the
source). -/
def TrialStatus.toStr : TrialStatus → String
  | .pending => "pending"
  | .accepted => "accepted"
  | .rejected => "rejected"

/-- The Python values compared by the handlers: UserRole members, TrialStatus
members and string literals. -/
inductive PyVal
  | vRole (r : UserRole)
  | vStatus (t : TrialStatus)
  | vStr (s : String)
deriving DecidableEq, Repr

/-- Python equality on those values.  TrialStatus subclasses str
(src/app/models.py line 26), so its members equal their string values; the
UserRole Enum does not subclass str (line 19), so a UserRole member is never
equal to a string. -/
def pyEq : PyVal → PyVal → Bool
  | .vRole a, .vRole b => a == b
  | .vStatus a, .vStatus b => a == b
  | .vStr a, .vStr b => a == b
  | .vStatus a, .vStr b => a.toStr == b
  | .vStr a, .vStatus b => a == b.toStr
  | _, _ => false

/-- app.models.User (src/app/models.py lines 36-46), the columns only. -/
structure User where
  id : Nat
  name : String
  email : String
  hashed_password : String
  role : UserRole
deriving DecidableEq, Repr

/-- app.models.Gym (src/app/models.py lines 53-69), the columns only.  The
Float columns location_lat and location_lng never enter any compared logic
and are modelled over Int; timestamps are abstract Nat ticks. -/
structure Gym where
  id : Nat
  owner_id : Nat
  name : String
  address : String
  subscription_fee : Int
  trial_available : Bool
  description : Option String
  location_lat : Option Int
  location_lng : Option Int
  created_at : Nat
deriving DecidableEq, Repr

/-- app.models.TrialBooking (src/app/models.py lines 92-102).  Note: the
table has NO scheduled_at column. -/
structure TrialBooking where
  id : Nat
  user_id : Nat
  gym_id : Nat
  status : TrialStatus
  created_at : Nat
deriving DecidableEq, Repr

/-- The relational store the session points at: one list per table. -/
structure Store where
  users : List User
  gyms : List Gym
  trial_bookings : List TrialBooking
deriving DecidableEq, Repr

/-- Errors surfaced by a handler: a raised HTTPException with its status code
and detail, or a Python runtime error escaping the handler body. -/
inductive Err
  | http (code : Nat) (detail : String)
  | attributeError (msg : String)
deriving DecidableEq, Repr

/-- app.schemas.TrialBookingCreate (src/app/schemas.py lines 116-121): it
declares the single field gym_id and NO scheduled_at field. -/
structure TrialBookingCreate where
  gym_id : Nat
deriving DecidableEq, Repr

/-- Modelled from the spec: schemas.TrialStatusUpdate is referenced at
src/app/routes/trials.py line 67 but is not defined in src/app/schemas.py.
The spec describes the PUT /trials/.../status body as a status_update value;
it is carried here as a free string so that the handler validity check of
src/app/routes/trials.py lines 91-96 is the deciding filter, as the spec
describes. -/
structure TrialStatusUpdate where
  status_update : String
deriving DecidableEq, Repr

/-- app.schemas.GymUpdate (src/app/schemas.py lines 92-99): every field
optional, used for partial updates. -/
structure GymUpdate where
  name : Option String := none
  address : Option String := none
  subscription_fee : Option Int := none
  trial_available : Option Bool := none
  description : Option String := none
  location_lat : Option Int := none
  location_lng : Option Int := none
deriving DecidableEq, Repr

/-- crud.get_gym (src/app/crud.py lines 76-77): first gym with the given id. -/
def get_gym (st : Store) (gym_id : Nat) : Option Gym :=
  st.gyms.find? (fun g => g.id == gym_id)

/-- The function names defined at module level in src/app/crud.py.  The name
delete_gym is absent, although src/app/routes/gyms.py line 104 calls
crud.delete_gym. -/
def crud_defined_names : List String :=
  ["get_user_by_email", "get_user", "create_user", "create_gym", "get_gyms",
   "get_gym", "update_gym", "list_gyms", "add_trainer", "list_trainers_by_gym",
   "create_trial_request", "list_trial_requests_for_gym", "update_trial_status"]

/-- crud.get_gyms (src/app/crud.py lines 53-73).  Each supplied filter makes
the source read an attribute the Gym model does not define: Gym.location
(line 65; the model has address, location_lat, location_lng only),
Gym.subscription_price (lines 67 and 69; the model column is
subscription_fee) and Gym.has_trial (line 71; the model column is
trial_available), so evaluating that filter raises AttributeError before any
row is compared.  The location filter uses Python truthiness, so an empty
string is skipped; the price and trial filters test for None. -/
def get_gyms (st : Store) (skip limit : Nat) (location : Option String)
    (min_price max_price : Option Int) (has_trial : Option Bool) :
    Except Err (List Gym) :=
  if location.getD "" != "" then
    .error (.attributeError "type object Gym has no attribute location")
  else if min_price.isSome then
    .error (.attributeError "type object Gym has no attribute subscription_price")
  else if max_price.isSome then
    .error (.attributeError "type object Gym has no attribute subscription_price")
  else if has_trial.isSome then
    .error (.attributeError "type object Gym has no attribute has_trial")
  else
    .ok ((st.gyms.drop skip).take limit)

/-- Replace the first element satisfying p by f of it, leaving the rest of
the list untouched: the effect of mutating the single ORM object returned by
query(...).first() and committing. -/
def updateFirst (p : α → Bool) (f : α → α) : List α → List α
  | [] => []
  | a :: rest => if p a then f a :: rest else a :: updateFirst p f rest

/-- Apply a GymUpdate to a gym: every supplied field overwrites the column,
mirroring the setattr loop of crud.update_gym (src/app/crud.py lines 86-88). -/
def apply_gym_update (g : Gym) (u : GymUpdate) : Gym :=
  { g with
    name := u.name.getD g.name
    address := u.address.getD g.address
    subscription_fee := u.subscription_fee.getD g.subscription_fee
    trial_available := u.trial_available.getD g.trial_available
    description := if u.description.isSome then u.description else g.description
    location_lat := if u.location_lat.isSome then u.location_lat else g.location_lat
    location_lng := if u.location_lng.isSome then u.location_lng else g.location_lng }

/-- crud.update_gym (src/app/crud.py lines 81-92): find the gym, apply the
partial update, commit, return the updated gym; None when absent. -/
def crud_update_gym (st : Store) (gym_id : Nat) (gym_update : GymUpdate) :
    Option (Gym × Store) :=
  match get_gym st gym_id with
  | none => none
  | some g =>
      let gyms' := updateFirst (fun x => x.id == gym_id)
        (fun x => apply_gym_update x gym_update) st.gyms
      some (apply_gym_update g gym_update, { st with gyms := gyms' })

/-- The denial condition of src/app/routes/gyms.py lines 82 and 101:
current_user.role not in [UserRole.gym_owner, UserRole.admin] or
gym.owner_id != current_user.id. -/
def gym_mutation_denied (current_user : User) (gym : Gym) : Bool :=
  !([UserRole.gym_owner, UserRole.admin].contains current_user.role)
    || gym.owner_id != current_user.id

/-- Route handler update_gym (src/app/routes/gyms.py lines 70-85). -/
def update_gym_route (st : Store) (gym_id : Nat) (gym_update : GymUpdate)
    (current_user : User) : Except Err (Gym × Store) :=
  match get_gym st gym_id with
  | none => .error (.http 404 "Gym not found")
  | some gym =>
      if gym_mutation_denied current_user gym then
        .error (.http 403 "Not authorized to update this gym")
      else
        match crud_update_gym st gym_id gym_update with
        | none => .error (.http 404 "Gym not found")
        | some r => .ok r

/-- Route handler delete_gym (src/app/routes/gyms.py lines 91-105).  After
the not-found and authorization checks, line 104 evaluates crud.delete_gym,
an attribute src/app/crud.py never defines (see crud_defined_names), so the
lookup raises AttributeError and the success return at line 105 is never
reached. -/
def delete_gym_route (st : Store) (gym_id : Nat) (current_user : User) :
    Except Err (String × Store) :=
  match get_gym st gym_id with
  | none => .error (.http 404 "Gym not found")
  | some gym =>
      if gym_mutation_denied current_user gym then
        .error (.http 403 "Not authorized to delete this gym")
      else
        .error (.attributeError "module app.crud has no attribute delete_gym")

/-- Route handler book_trial (src/app/routes/trials.py lines 14-61).  The
gym-existence check and the duplicate-pending check follow the source; the
creation block at lines 51-56 then evaluates trial.scheduled_at, a field
TrialBookingCreate does not declare (src/app/schemas.py lines 116-121), so
it raises AttributeError before any row is inserted (the TrialBooking model
also has no scheduled_at column, so the constructor call itself would also
fail). -/
def book_trial (st : Store) (trial : TrialBookingCreate) (current_user : User) :
    Except Err (TrialBooking × Store) :=
  match get_gym st trial.gym_id with
  | none => .error (.http 404 "Gym not found")
  | some _ =>
      match st.trial_bookings.find? (fun b =>
          b.gym_id == trial.gym_id && b.user_id == current_user.id
            && pyEq (.vStatus b.status) (.vStr "pending")) with
      | some _ =>
          .error (.http 400 "You already have a pending trial booking for this gym")
      | none =>
          .error (.attributeError "TrialBookingCreate object has no attribute scheduled_at")

/-- The denial condition of src/app/routes/trials.py line 85:
trial.gym.owner_id != current_user.id and current_user.role != "admin".
The role comparison is a Python equality between a UserRole member and the
string literal admin, embedded through pyEq. -/
def trial_status_update_denied (current_user : User) (gym : Gym) : Bool :=
  gym.owner_id != current_user.id
    && !(pyEq (.vRole current_user.role) (.vStr "admin"))

/-- The allowed_statuses set of src/app/routes/trials.py line 91. -/
def allowed_statuses : List TrialStatus :=
  [.pending, .accepted, .rejected]

/-- The membership test of src/app/routes/trials.py line 92:
request.status_update in allowed_statuses, a Python equality between the
request string and a TrialStatus str-enum member. -/
def status_update_allowed (s : String) : Bool :=
  allowed_statuses.any (fun t => pyEq (.vStr s) (.vStatus t))

/-- The TrialStatus member a valid status string coerces to when assigned to
the Enum column (reached only after status_update_allowed holds). -/
def statusOfString (s : String) : TrialStatus :=
  if s == "accepted" then .accepted
  else if s == "rejected" then .rejected
  else .pending

/-- The store after the commit of src/app/routes/trials.py lines 98-99: the
first booking with the given id takes the new status; no other row of any
table is touched. -/
def set_booking_status (st : Store) (trial_id : Nat) (ns : TrialStatus) : Store :=
  let bookings' := updateFirst (fun b => b.id == trial_id)
    (fun b => { b with status := ns }) st.trial_bookings
  { st with trial_bookings := bookings' }

/-- Route handler update_trial_status (src/app/routes/trials.py lines
64-102): find the booking (404), authorization (403), valid-status check
(400), then assign the new status to the found row and commit.  No check of
the current status is made before the assignment.  The gym of the booking is
reached through the trial.gym relationship; a dangling gym_id would make it
None and the owner_id access would raise. -/
def update_trial_status_route (st : Store) (trial_id : Nat)
    (request : TrialStatusUpdate) (current_user : User) :
    Except Err (TrialBooking × Store) :=
  match st.trial_bookings.find? (fun b => b.id == trial_id) with
  | none => .error (.http 404 "Trial booking not found")
  | some trial =>
      match get_gym st trial.gym_id with
      | none => .error (.attributeError "NoneType object has no attribute owner_id")
      | some gym =>
          if trial_status_update_denied current_user gym then
            .error (.http 403 "Not authorized to update this trial booking")
          else if !(status_update_allowed request.status_update) then
            .error (.http 400 "Status must be one of allowed statuses")
          else
            .ok ({ trial with status := statusOfString request.status_update },
              set_booking_status st trial_id (statusOfString request.status_update))

/-! Concrete fixtures used by witnesses and counterexamples. -/

/-- A seeker with id 1. -/
def alice : User :=
  { id := 1, name := "alice", email := "alice@example.com",
    hashed_password := "h1", role := .seeker }

/-- A gym owner with id 2, the owner of both sample gyms. -/
def owen : User :=
  { id := 2, name := "owen", email := "owen@example.com",
    hashed_password := "h2", role := .gym_owner }

/-- An admin with id 3 who owns no gym. -/
def adam : User :=
  { id := 3, name := "adam", email := "adam@example.com",
    hashed_password := "h3", role := .admin }

/-- A gym owned by owen. -/
def gym1 : Gym :=
  { id := 1, owner_id := 2, name := "Gym One", address := "1 Main St",
    subscription_fee := 60, trial_available := true, description := none,
    location_lat := none, location_lng := none, created_at := 0 }

/-- A second gym, also owned by owen. -/
def gym2 : Gym := { gym1 with id := 2, name := "Gym Two" }

/-- A pending booking by alice for gym1. -/
def bookingPending : TrialBooking :=
  { id := 1, user_id := 1, gym_id := 1, status := .pending, created_at := 0 }

/-- A booking by alice for gym1 already in the terminal accepted state. -/
def bookingAccepted : TrialBooking :=
  { id := 2, user_id := 1, gym_id := 1, status := .accepted, created_at := 0 }

/-- A sample store with the three users, two gyms and two bookings. -/
def store1 : Store :=
  { users := [alice, owen, adam], gyms := [gym1, gym2],
    trial_bookings := [bookingPending, bookingAccepted] }

/-! General lemmas about the embedding. -/

/-- An element the predicate rejects is kept by updateFirst. -/
theorem mem_updateFirst_of_not {α : Type} (p : α → Bool) (f : α → α)
    (l : List α) (a : α) (ha : a ∈ l) (hp : p a = false) :
    a ∈ updateFirst p f l := by
  induction l with
  | nil => cases ha
  | cons b rest ih =>
    rcases List.mem_cons.mp ha with h | hmem
    · subst h
      unfold updateFirst
      rw [if_neg (by simp [hp])]
      exact List.mem_cons_self a _
    · unfold updateFirst
      by_cases hb : p b = true
      · rw [if_pos hb]
        exact List.mem_cons_of_mem _ hmem
      · rw [if_neg hb]
        exact List.mem_cons_of_mem _ (ih hmem)

/-- The crud module exposes no delete_gym attribute. -/
theorem crud_has_no_delete_gym : crud_defined_names.contains "delete_gym" = false := by
  decide

/-! Claim theorems. -/

/-- Claim C1: the claim says a request by an authenticated caller for an
existing gym with no pending duplicate succeeds and creates a pending
booking.  On the code this success path instead raises AttributeError: the
handler reads trial.scheduled_at, which neither the TrialBookingCreate
schema nor the TrialBooking model defines, so no booking is ever created. -/
theorem book_trial_success_path_raises (st : Store) (trial : TrialBookingCreate)
    (current_user : User) (g : Gym)
    (hgym : get_gym st trial.gym_id = some g)
    (hdup : st.trial_bookings.find? (fun b =>
      b.gym_id == trial.gym_id && b.user_id == current_user.id
        && pyEq (.vStatus b.status) (.vStr "pending")) = none) :
    book_trial st trial current_user =
      .error (.attributeError "TrialBookingCreate object has no attribute scheduled_at") := by
  unfold book_trial
  rw [hgym, hdup]

/-- Witness for claim C1 at a concrete input: alice books gym2, for which the
gym exists and she has no pending booking. -/
theorem book_trial_success_path_raises_witness :
    book_trial store1 { gym_id := 2 } alice =
      .error (.attributeError "TrialBookingCreate object has no attribute scheduled_at") :=
  book_trial_success_path_raises store1 { gym_id := 2 } alice gym2 (by rfl) (by rfl)

/-- Claim C2: the claim says an admin may update or delete any gym, even one
it does not own.  Evaluating the handlers refutes this: adam, an admin whose
id 3 differs from the owner id 2 of gym1, receives Forbidden from both the
update and the delete handler, because the code requires the caller id to
equal the gym owner id regardless of role. -/
theorem gym_mutation_admin_denied_eval :
    update_gym_route store1 1 {} adam =
      .error (.http 403 "Not authorized to update this gym")
    ∧ delete_gym_route store1 1 adam =
      .error (.http 403 "Not authorized to delete this gym") :=
  ⟨rfl, rfl⟩

/-- Claim C3: the claim says update_status is permitted for every admin, even
one that does not own the gym.  Evaluating the handler refutes this: adam,
an admin not owning gym1, is denied, because the handler compares the
UserRole enum member against the string admin, which is never equal in
Python, leaving only the ownership test. -/
theorem trial_status_admin_denied_eval :
    update_trial_status_route store1 1 { status_update := "accepted" } adam =
      .error (.http 403 "Not authorized to update this trial booking") :=
  rfl

/-- Claim C4, counterexample to the stated error kind: alice already has a
pending booking for gym1, and a second booking attempt fails with HTTP 400
Bad Request, not with the HTTP 409 Conflict the claim states. -/
theorem duplicate_pending_http400_eval :
    book_trial store1 { gym_id := 1 } alice =
      .error (.http 400 "You already have a pending trial booking for this gym") :=
  rfl

/-- Claim C4 as amended: when a pending booking by the requester for the gym
already exists, book_trial fails with HTTP 400 Bad Request (duplicate pending
booking) and no new booking is created. -/
theorem book_trial_duplicate_pending_rejected (st : Store)
    (trial : TrialBookingCreate) (current_user : User) (g : Gym)
    (hgym : get_gym st trial.gym_id = some g)
    (hdup : ∃ b ∈ st.trial_bookings, b.gym_id = trial.gym_id
      ∧ b.user_id = current_user.id ∧ b.status = TrialStatus.pending) :
    book_trial st trial current_user =
      .error (.http 400 "You already have a pending trial booking for this gym") := by
  unfold book_trial
  rw [hgym]
  obtain ⟨b, hb, h1, h2, h3⟩ := hdup
  have hsome : (st.trial_bookings.find? (fun b =>
      b.gym_id == trial.gym_id && b.user_id == current_user.id
        && pyEq (.vStatus b.status) (.vStr "pending"))).isSome := by
    rw [List.find?_isSome]
    exact ⟨b, hb, by simp [h1, h2, h3, pyEq, TrialStatus.toStr]⟩
  obtain ⟨b0, hb0⟩ := Option.isSome_iff_exists.mp hsome
  rw [hb0]

/-- Witness for claim C4 at a concrete input: alice rebooks gym1 while her
pending booking for it exists. -/
theorem book_trial_duplicate_pending_rejected_witness :
    book_trial store1 { gym_id := 1 } alice =
      .error (.http 400 "You already have a pending trial booking for this gym") :=
  book_trial_duplicate_pending_rejected store1 { gym_id := 1 } alice gym1
    (by rfl) (by decide)

/-- Claim C5, counterexample: booking 2 of the sample store is in the
terminal accepted state, yet the gym owner moves it back to pending and the
call succeeds, so an update targeting a terminal booking neither fails nor
leaves the status unchanged. -/
theorem terminal_booking_transition_succeeds_eval :
    bookingAccepted.status = TrialStatus.accepted
    ∧ update_trial_status_route store1 2 { status_update := "pending" } owen =
      .ok ({ bookingAccepted with status := TrialStatus.pending },
        set_booking_status store1 2 TrialStatus.pending) :=
  ⟨rfl, rfl⟩

/-- Claim C5 as amended: update_status applies no terminal-state guard: for
every booking, including one already accepted or rejected, an authorized
caller supplying a valid status succeeds and the booking takes the new
status, so a booking can leave a terminal state. -/
theorem update_trial_status_no_terminal_guard (st : Store) (trial_id : Nat)
    (request : TrialStatusUpdate) (current_user : User)
    (trial : TrialBooking) (gym : Gym)
    (hfind : st.trial_bookings.find? (fun b => b.id == trial_id) = some trial)
    (hgym : get_gym st trial.gym_id = some gym)
    (hauth : trial_status_update_denied current_user gym = false)
    (hvalid : status_update_allowed request.status_update = true) :
    update_trial_status_route st trial_id request current_user =
      .ok ({ trial with status := statusOfString request.status_update },
        set_booking_status st trial_id (statusOfString request.status_update)) := by
  simp only [update_trial_status_route, hfind, hgym]
  rw [if_neg (by simp [hauth]), if_neg (by simp [hvalid])]

/-- Witness for claim C5 at a concrete input: owen, the owner of gym1, moves
the terminal accepted booking 2 back to pending. -/
theorem update_trial_status_no_terminal_guard_witness :
    update_trial_status_route store1 2 { status_update := "pending" } owen =
      .ok ({ bookingAccepted with status := TrialStatus.pending },
        set_booking_status store1 2 TrialStatus.pending) :=
  update_trial_status_no_terminal_guard store1 2 { status_update := "pending" }
    owen bookingAccepted gym1 (by rfl) (by rfl) (by rfl) (by rfl)

/-- Claim C6: for an authorized caller and an existing booking, a status
value outside the allowed set, such as approved, fails with HTTP 400 Bad
Request and the booking is left unchanged, while the three member values
pending, accepted and rejected pass the validity check and approved does
not. -/
theorem update_trial_status_invalid_status_bad_request (st : Store)
    (trial_id : Nat) (current_user : User) (trial : TrialBooking) (gym : Gym)
    (hfind : st.trial_bookings.find? (fun b => b.id == trial_id) = some trial)
    (hgym : get_gym st trial.gym_id = some gym)
    (hauth : trial_status_update_denied current_user gym = false) :
    update_trial_status_route st trial_id { status_update := "approved" }
        current_user = .error (.http 400 "Status must be one of allowed statuses")
    ∧ status_update_allowed "approved" = false
    ∧ status_update_allowed "pending" = true
    ∧ status_update_allowed "accepted" = true
    ∧ status_update_allowed "rejected" = true := by
  refine ⟨?_, by decide, by decide, by decide, by decide⟩
  simp only [update_trial_status_route, hfind, hgym]
  rw [if_neg (by simp [hauth])]
  rfl

/-- Witness for claim C6 at a concrete input: owen, the owner of gym1, sends
the invalid status approved for booking 1. -/
theorem update_trial_status_invalid_status_bad_request_witness :
    update_trial_status_route store1 1 { status_update := "approved" } owen =
      .error (.http 400 "Status must be one of allowed statuses")
    ∧ status_update_allowed "approved" = false
    ∧ status_update_allowed "pending" = true
    ∧ status_update_allowed "accepted" = true
    ∧ status_update_allowed "rejected" = true :=
  update_trial_status_invalid_status_bad_request store1 1 owen bookingPending
    gym1 (by rfl) (by rfl) (by rfl)

/-- Claim C7: the claim says a listing filtered by min_price 50 and
max_price 100 returns only gyms with fee in that range.  On the code, for
every store and every pagination window, supplying the price filters makes
get_gyms read Gym.subscription_price, an attribute the Gym model does not
define (its column is subscription_fee), so the query raises AttributeError
and no list is ever returned. -/
theorem get_gyms_price_filter_attribute_error (st : Store) (skip limit : Nat) :
    get_gyms st skip limit none (some 50) (some 100) none =
      .error (.attributeError "type object Gym has no attribute subscription_price") :=
  rfl

/-- Claim C8: for every caller that passes the delete authorization check on
an existing gym, the delete handler never reaches its success return: it
calls crud.delete_gym, an attribute src/app/crud.py does not define, so the
call raises AttributeError and no gym is deleted through this endpoint. -/
theorem delete_gym_success_unreachable (st : Store) (gym_id : Nat)
    (current_user : User) (gym : Gym)
    (hgym : get_gym st gym_id = some gym)
    (hauth : gym_mutation_denied current_user gym = false) :
    delete_gym_route st gym_id current_user =
      .error (.attributeError "module app.crud has no attribute delete_gym") := by
  simp only [delete_gym_route, hgym]
  rw [if_neg (by simp [hauth])]

/-- Witness for claim C8 at a concrete input: owen, owner of gym1 with the
gym_owner role, passes the authorization check and still gets the attribute
error. -/
theorem delete_gym_success_unreachable_witness :
    delete_gym_route store1 1 owen =
      .error (.attributeError "module app.crud has no attribute delete_gym") :=
  delete_gym_success_unreachable store1 1 owen gym1 (by rfl) (by rfl)

/-- Claim C9: book_trial imposes no role restriction: the handler never
inspects the role of the caller, so replacing the role of any caller by any
other role leaves the result of book_trial unchanged on every store and
request. -/
theorem book_trial_ignores_role (st : Store) (trial : TrialBookingCreate)
    (u : User) (r : UserRole) :
    book_trial st trial { u with role := r } = book_trial st trial u :=
  rfl

/-- Claim C10: a successful update_status call changes only the status field
of the targeted booking: its id, user_id, gym_id and created_at are
unchanged, the users and gyms tables are unchanged, every other booking is
still present, and the bookings table is exactly the old one with the first
matching row given the new status. -/
theorem update_trial_status_frame (st : Store) (trial_id : Nat)
    (request : TrialStatusUpdate) (current_user : User)
    (trial tr' : TrialBooking) (st' : Store)
    (hfind : st.trial_bookings.find? (fun b => b.id == trial_id) = some trial)
    (hok : update_trial_status_route st trial_id request current_user =
      .ok (tr', st')) :
    tr'.id = trial.id ∧ tr'.user_id = trial.user_id
    ∧ tr'.gym_id = trial.gym_id ∧ tr'.created_at = trial.created_at
    ∧ st'.users = st.users ∧ st'.gyms = st.gyms
    ∧ st'.trial_bookings = updateFirst (fun b => b.id == trial_id)
        (fun b => { b with status := tr'.status }) st.trial_bookings
    ∧ ∀ b ∈ st.trial_bookings, b.id ≠ trial_id → b ∈ st'.trial_bookings := by
  simp only [update_trial_status_route, hfind] at hok
  split at hok
  · simp at hok
  · split at hok
    · simp at hok
    · split at hok
      · simp at hok
      · rw [Except.ok.injEq, Prod.mk.injEq] at hok
        obtain ⟨h1, h2⟩ := hok
        subst h2
        subst h1
        refine ⟨rfl, rfl, rfl, rfl, rfl, rfl, rfl, ?_⟩
        intro b hb hne
        apply mem_updateFirst_of_not _ _ _ _ hb
        simp [hne]

/-- Witness for claim C10 at a concrete input: the successful move of
booking 2 to pending by owen keeps the users and gyms tables and the other
booking intact. -/
theorem update_trial_status_frame_witness :
    (set_booking_status store1 2 TrialStatus.pending).users = store1.users
    ∧ (set_booking_status store1 2 TrialStatus.pending).gyms = store1.gyms :=
  ⟨(update_trial_status_frame store1 2 { status_update := "pending" } owen
      bookingAccepted { bookingAccepted with status := TrialStatus.pending }
      (set_booking_status store1 2 TrialStatus.pending)
      (by rfl) (by rfl)).2.2.2.2.1,
   (update_trial_status_frame store1 2 { status_update := "pending" } owen
      bookingAccepted { bookingAccepted with status := TrialStatus.pending }
      (set_booking_status store1 2 TrialStatus.pending)
      (by rfl) (by rfl)).2.2.2.2.2.1⟩

end GymSaas
